import Mathlib

/-!
Shallow embedding of the bearer-token HTTP client
(src/dashboard/backend/central_api_client.py) of the Aruba-Central-Portal
repository, together with theorems settling spec claims about it.

The external collaborators are modelled as follows.

  Transport (the requests library): each verb takes the HttpResponse the
  transport would return for the issued request, and returns the issued
  Request alongside the outcome, so that theorems can talk about the
  headers and address actually sent.  raise_for_status of the requests
  library raises an HTTPError exactly when 400 <= status_code < 600.

  TokenManager (external, consumed through its one-method contract
  get_access_token): an oracle giving the token returned by each
  successive call; the client records how many calls it has made.

  JSON decoding (response.json of the requests library): the response
  carries the decode outcome of its body text as an Except value.
-/

/-- Decoded JSON values, the structured data bodies decode to. -/
inductive Json where
  | null : Json
  | bool (b : Bool) : Json
  | num (n : Int) : Json
  | str (s : String) : Json
  | arr (elems : List Json) : Json
  | obj (fields : List (String × Json)) : Json

/-- A JSON value is a mapping exactly when it is an object. -/
def Json.isMapping : Json → Bool
  | .obj _ => true
  | _ => false

/-- External token provider: tokens n is the token returned by the
(n+1)-th call of get_access_token. -/
structure TokenManager where
  tokens : Nat → String

/-- Client state: base address, optional provider, session headers, and
the number of get_access_token calls made so far on the provider. -/
structure CentralAPIClient where
  base_url : String
  token_manager : Option TokenManager
  headers : List (String × String)
  tm_calls : Nat

/-- A response from the transport: status code, body text, and the JSON
decode outcome of that body (what response.json of the requests library
yields: a value, or a decode failure). -/
structure HttpResponse where
  status_code : Nat
  text : String
  json : Except String Json

/-- Errors a verb call can surface to the caller. -/
inductive ApiError where
  | httpError (status_code : Nat) : ApiError
  | decodeError (msg : String) : ApiError

/-- The request a verb call hands to the transport. -/
structure Request where
  method : String
  url : String
  headers : List (String × String)
  params : Option (List (String × String))
  body : Option Json

/-- Outcome of one verb call: the client state afterwards, the request
that was issued, and the result returned or error raised. -/
structure VerbOut where
  client : CentralAPIClient
  request : Request
  result : Except ApiError Json

/-- Python str.rstrip with the single character slash: drop every
trailing slash. -/
def rstripSlash (s : String) : String :=
  String.mk ((s.data.reverse.dropWhile (fun c => c == '/')).reverse)

/-- Header lookup in the session header mapping. -/
def lookupHeader : List (String × String) → String → Option String
  | [], _ => none
  | p :: rest, k => if p.fst == k then some p.snd else lookupHeader rest k

/-- Python dict update with a single key: replace the value if the key
is present (keys are unique), else append the pair. -/
def updateHeader : List (String × String) → String → String → List (String × String)
  | [], k, v => [(k, v)]
  | p :: rest, k, v => if p.fst == k then (k, v) :: rest else p :: updateHeader rest k v

/-- update_token: set the Authorization header to Bearer followed by the
token (central_api_client.py lines 46-50). -/
def CentralAPIClient.update_token (headers : List (String × String))
    (access_token : String) : List (String × String) :=
  updateHeader headers "Authorization" ("Bearer " ++ access_token)

/-- init (central_api_client.py lines 17-44): strip trailing slashes
from the base address, set the JSON content-type header, then install a
token: eagerly fetched from the provider when one is given, else the
static token when it is truthy (Python: a non-empty string), else raise
a ValueError. -/
def CentralAPIClient.init (base_url : String) (access_token : Option String)
    (tm : Option TokenManager) : Except String CentralAPIClient :=
  let base := rstripSlash base_url
  let headers0 := updateHeader [] "Content-Type" "application/json"
  match tm with
  | some m =>
      Except.ok { base_url := base, token_manager := some m, tm_calls := 1,
                  headers := CentralAPIClient.update_token headers0 (m.tokens 0) }
  | none =>
      match access_token with
      | some t =>
          if t == "" then
            Except.error "Either access_token or token_manager must be provided"
          else
            Except.ok { base_url := base, token_manager := none, tm_calls := 0,
                        headers := CentralAPIClient.update_token headers0 t }
      | none => Except.error "Either access_token or token_manager must be provided"

/-- ensure_valid_token (lines 52-56): when a provider is configured,
fetch its current token and overwrite the Authorization header. -/
def CentralAPIClient.ensure_valid_token (c : CentralAPIClient) : CentralAPIClient :=
  match c.token_manager with
  | some m =>
      { c with tm_calls := c.tm_calls + 1,
               headers := CentralAPIClient.update_token c.headers (m.tokens c.tm_calls) }
  | none => c

/-- raise_for_status of the requests library raises exactly for status
codes in 400..599 (client and server errors). -/
def raiseForStatus (status_code : Nat) : Bool :=
  decide (400 ≤ status_code) && decide (status_code < 600)

/-- Python str.strip with no argument: drop leading and trailing
whitespace. -/
def pyStrip (s : String) : String :=
  String.mk (((s.data.dropWhile Char.isWhitespace).reverse.dropWhile
    Char.isWhitespace).reverse)

/-- get (lines 58-103): refresh token, build the address by plain
concatenation, raise on error status; on success an empty or blank body
yields the empty mapping, a decode failure is swallowed to the empty
mapping, a null value is normalized to the empty mapping, and any other
decoded value is returned as is. -/
def CentralAPIClient.get (c : CentralAPIClient) (endpoint : String)
    (params : Option (List (String × String))) (resp : HttpResponse) : VerbOut :=
  let c1 := CentralAPIClient.ensure_valid_token c
  let result : Except ApiError Json :=
    if raiseForStatus resp.status_code then
      Except.error (ApiError.httpError resp.status_code)
    else if resp.text == "" || pyStrip resp.text == "" then
      Except.ok (Json.obj [])
    else
      match resp.json with
      | Except.ok Json.null => Except.ok (Json.obj [])
      | Except.ok j => Except.ok j
      | Except.error _ => Except.ok (Json.obj [])
  { client := c1,
    request := { method := "GET", url := c1.base_url ++ endpoint,
                 headers := c1.headers, params := params, body := none },
    result := result }

/-- post (lines 105-131): refresh token, concatenate the address, raise
on error status, then decode the body directly; a decode failure
propagates as an error. -/
def CentralAPIClient.post (c : CentralAPIClient) (endpoint : String) (data : Option Json)
    (params : Option (List (String × String))) (resp : HttpResponse) : VerbOut :=
  let c1 := CentralAPIClient.ensure_valid_token c
  let result : Except ApiError Json :=
    if raiseForStatus resp.status_code then
      Except.error (ApiError.httpError resp.status_code)
    else
      match resp.json with
      | Except.ok j => Except.ok j
      | Except.error e => Except.error (ApiError.decodeError e)
  { client := c1,
    request := { method := "POST", url := c1.base_url ++ endpoint,
                 headers := c1.headers, params := params, body := data },
    result := result }

/-- put (lines 133-159): same shape as post. -/
def CentralAPIClient.put (c : CentralAPIClient) (endpoint : String) (data : Option Json)
    (params : Option (List (String × String))) (resp : HttpResponse) : VerbOut :=
  let c1 := CentralAPIClient.ensure_valid_token c
  let result : Except ApiError Json :=
    if raiseForStatus resp.status_code then
      Except.error (ApiError.httpError resp.status_code)
    else
      match resp.json with
      | Except.ok j => Except.ok j
      | Except.error e => Except.error (ApiError.decodeError e)
  { client := c1,
    request := { method := "PUT", url := c1.base_url ++ endpoint,
                 headers := c1.headers, params := params, body := data },
    result := result }

/-- delete (lines 161-185): same shape as post, with no body payload. -/
def CentralAPIClient.delete (c : CentralAPIClient) (endpoint : String)
    (params : Option (List (String × String))) (resp : HttpResponse) : VerbOut :=
  let c1 := CentralAPIClient.ensure_valid_token c
  let result : Except ApiError Json :=
    if raiseForStatus resp.status_code then
      Except.error (ApiError.httpError resp.status_code)
    else
      match resp.json with
      | Except.ok j => Except.ok j
      | Except.error e => Except.error (ApiError.decodeError e)
  { client := c1,
    request := { method := "DELETE", url := c1.base_url ++ endpoint,
                 headers := c1.headers, params := params, body := none },
    result := result }

/-- One verb call in a sequence of calls against a client. -/
inductive Call where
  | getC (endpoint : String) (params : Option (List (String × String)))
      (resp : HttpResponse) : Call
  | postC (endpoint : String) (data : Option Json)
      (params : Option (List (String × String))) (resp : HttpResponse) : Call
  | putC (endpoint : String) (data : Option Json)
      (params : Option (List (String × String))) (resp : HttpResponse) : Call
  | deleteC (endpoint : String) (params : Option (List (String × String)))
      (resp : HttpResponse) : Call

/-- The client state after performing a sequence of verb calls. -/
def runCalls (c : CentralAPIClient) : List Call → CentralAPIClient
  | [] => c
  | call :: rest =>
      let c1 := match call with
        | .getC e p r => (CentralAPIClient.get c e p r).client
        | .postC e d p r => (CentralAPIClient.post c e d p r).client
        | .putC e d p r => (CentralAPIClient.put c e d p r).client
        | .deleteC e p r => (CentralAPIClient.delete c e p r).client
      runCalls c1 rest

/-! Concrete inputs used by witnesses and counterexamples. -/

/-- A provider whose successive tokens differ. -/
def demoTM : TokenManager := { tokens := fun n => "tok" ++ Nat.repr n }

/-- Fallback client value, never reached by the demo constructions. -/
def fallbackClient : CentralAPIClient :=
  { base_url := "", token_manager := none, headers := [], tm_calls := 0 }

/-- The client built with the demo provider. -/
def demoClientTM : CentralAPIClient :=
  match CentralAPIClient.init "https://x" none (some demoTM) with
  | Except.ok c => c
  | Except.error _ => fallbackClient

/-- The client built with a static token and no provider. -/
def demoClientStatic : CentralAPIClient :=
  match CentralAPIClient.init "https://x/" (some "S") none with
  | Except.ok c => c
  | Except.error _ => fallbackClient

/-- The client built with both a static token and the demo provider. -/
def demoClientBoth : CentralAPIClient :=
  match CentralAPIClient.init "https://x" (some "S") (some demoTM) with
  | Except.ok c => c
  | Except.error _ => fallbackClient

/-- A success response whose body fails to decode. -/
def respBadJson : HttpResponse :=
  { status_code := 200, text := "not json", json := Except.error "Expecting value" }

/-- A client-error response. -/
def resp404 : HttpResponse :=
  { status_code := 404, text := "not found page", json := Except.ok (Json.str "x") }

/-- A success response whose body decodes to a mapping. -/
def respObj : HttpResponse :=
  { status_code := 200, text := "\x7b\x22a\x22:1\x7d",
    json := Except.ok (Json.obj [("a", Json.num 1)]) }

/-- A demo sequence exercising all four verbs. -/
def demoCalls : List Call :=
  [Call.getC "/a" none respBadJson,
   Call.postC "/b" (some (Json.obj [])) none respBadJson,
   Call.putC "/c" none none respBadJson,
   Call.deleteC "/d" none respBadJson]

/-! Result and state lemmas used when settling the claims. -/

/-- The result of a GET call depends only on the response. -/
theorem get_result_eq (c : CentralAPIClient) (e : String)
    (p : Option (List (String × String))) (resp : HttpResponse) :
    (CentralAPIClient.get c e p resp).result
      = if raiseForStatus resp.status_code then
          Except.error (ApiError.httpError resp.status_code)
        else if resp.text == "" || pyStrip resp.text == "" then
          Except.ok (Json.obj [])
        else
          match resp.json with
          | Except.ok Json.null => Except.ok (Json.obj [])
          | Except.ok j => Except.ok j
          | Except.error _ => Except.ok (Json.obj []) := rfl

/-- The result of a POST call depends only on the response. -/
theorem post_result_eq (c : CentralAPIClient) (e : String) (d : Option Json)
    (p : Option (List (String × String))) (resp : HttpResponse) :
    (CentralAPIClient.post c e d p resp).result
      = if raiseForStatus resp.status_code then
          Except.error (ApiError.httpError resp.status_code)
        else
          match resp.json with
          | Except.ok j => Except.ok j
          | Except.error e2 => Except.error (ApiError.decodeError e2) := rfl

/-- The result of a PUT call depends only on the response. -/
theorem put_result_eq (c : CentralAPIClient) (e : String) (d : Option Json)
    (p : Option (List (String × String))) (resp : HttpResponse) :
    (CentralAPIClient.put c e d p resp).result
      = if raiseForStatus resp.status_code then
          Except.error (ApiError.httpError resp.status_code)
        else
          match resp.json with
          | Except.ok j => Except.ok j
          | Except.error e2 => Except.error (ApiError.decodeError e2) := rfl

/-- The result of a DELETE call depends only on the response. -/
theorem delete_result_eq (c : CentralAPIClient) (e : String)
    (p : Option (List (String × String))) (resp : HttpResponse) :
    (CentralAPIClient.delete c e p resp).result
      = if raiseForStatus resp.status_code then
          Except.error (ApiError.httpError resp.status_code)
        else
          match resp.json with
          | Except.ok j => Except.ok j
          | Except.error e2 => Except.error (ApiError.decodeError e2) := rfl

/-- GET leaves the client in the token-refreshed state. -/
theorem get_client_eq (c : CentralAPIClient) (e : String)
    (p : Option (List (String × String))) (resp : HttpResponse) :
    (CentralAPIClient.get c e p resp).client = CentralAPIClient.ensure_valid_token c := rfl

/-- POST leaves the client in the token-refreshed state. -/
theorem post_client_eq (c : CentralAPIClient) (e : String) (d : Option Json)
    (p : Option (List (String × String))) (resp : HttpResponse) :
    (CentralAPIClient.post c e d p resp).client = CentralAPIClient.ensure_valid_token c := rfl

/-- PUT leaves the client in the token-refreshed state. -/
theorem put_client_eq (c : CentralAPIClient) (e : String) (d : Option Json)
    (p : Option (List (String × String))) (resp : HttpResponse) :
    (CentralAPIClient.put c e d p resp).client = CentralAPIClient.ensure_valid_token c := rfl

/-- DELETE leaves the client in the token-refreshed state. -/
theorem delete_client_eq (c : CentralAPIClient) (e : String)
    (p : Option (List (String × String))) (resp : HttpResponse) :
    (CentralAPIClient.delete c e p resp).client = CentralAPIClient.ensure_valid_token c := rfl

/-- Looking up the key just updated yields the new value. -/
theorem lookupHeader_updateHeader_self (hs : List (String × String)) (k v : String) :
    lookupHeader (updateHeader hs k v) k = some v := by
  induction hs with
  | nil => simp [updateHeader, lookupHeader]
  | cons p rest ih =>
      by_cases h : (p.fst == k) = true
      · simp [updateHeader, lookupHeader, h]
      · simp [updateHeader, lookupHeader, h, ih]

/-- After update_token the Authorization header holds the new bearer token. -/
theorem lookup_update_token (hs : List (String × String)) (t : String) :
    lookupHeader (CentralAPIClient.update_token hs t) "Authorization"
      = some ("Bearer " ++ t) :=
  lookupHeader_updateHeader_self hs _ _

/-- With no provider, the pre-request hook is the identity. -/
theorem ensure_valid_token_none (c : CentralAPIClient) (h : c.token_manager = none) :
    CentralAPIClient.ensure_valid_token c = c := by
  simp [CentralAPIClient.ensure_valid_token, h]

/-- With a provider, the pre-request hook fetches the token due at the
current call count and installs it. -/
theorem ensure_valid_token_some (c : CentralAPIClient) (m : TokenManager)
    (h : c.token_manager = some m) :
    CentralAPIClient.ensure_valid_token c
      = { c with tm_calls := c.tm_calls + 1,
                 headers := CentralAPIClient.update_token c.headers (m.tokens c.tm_calls) } := by
  simp [CentralAPIClient.ensure_valid_token, h]

/-- The pre-request hook never changes the base address. -/
theorem ensure_valid_token_base_url (c : CentralAPIClient) :
    (CentralAPIClient.ensure_valid_token c).base_url = c.base_url := by
  unfold CentralAPIClient.ensure_valid_token
  cases h : c.token_manager <;> rfl

/-- The pre-request hook never changes the provider reference. -/
theorem ensure_valid_token_tm (c : CentralAPIClient) :
    (CentralAPIClient.ensure_valid_token c).token_manager = c.token_manager := by
  unfold CentralAPIClient.ensure_valid_token
  cases h : c.token_manager <;> simp [h]

/-- Any successful construction strips trailing slashes off the base. -/
theorem init_base_url (base : String) (a : Option String) (tm : Option TokenManager)
    (c : CentralAPIClient) (h : CentralAPIClient.init base a tm = Except.ok c) :
    c.base_url = rstripSlash base := by
  cases tm with
  | some m =>
      simp only [CentralAPIClient.init, Except.ok.injEq] at h
      subst h; rfl
  | none =>
      cases a with
      | none => exact Except.noConfusion h
      | some t =>
          simp only [CentralAPIClient.init] at h
          split at h
          · exact Except.noConfusion h
          · simp only [Except.ok.injEq] at h
            subst h; rfl

/-- With no provider, a sequence of verb calls leaves the client unchanged. -/
theorem runCalls_no_provider (c : CentralAPIClient) (h : c.token_manager = none)
    (calls : List Call) : runCalls c calls = c := by
  induction calls with
  | nil => rfl
  | cons call rest ih =>
      cases call <;>
        simp only [runCalls, get_client_eq, post_client_eq, put_client_eq,
          delete_client_eq, ensure_valid_token_none c h] <;>
        exact ih

/-- A sequence of verb calls never changes the base address. -/
theorem runCalls_base_url (calls : List Call) :
    ∀ c : CentralAPIClient, (runCalls c calls).base_url = c.base_url := by
  induction calls with
  | nil => intro c; rfl
  | cons call rest ih =>
      intro c
      cases call <;>
        simp only [runCalls, get_client_eq, post_client_eq, put_client_eq,
          delete_client_eq] <;>
        rw [ih, ensure_valid_token_base_url]

/-! Claims. -/

/-- C1: For GET on an HTTP success status (below 400): an empty or
blank body, a body that fails to decode, and a body decoding to null
all make GET return the empty mapping, with no error propagated. -/
theorem C1_get_degenerate_body_empty_mapping (c : CentralAPIClient) (e : String)
    (p : Option (List (String × String))) (resp : HttpResponse)
    (hs : resp.status_code < 400)
    (hdeg : pyStrip resp.text = "" ∨ (∃ msg, resp.json = Except.error msg)
        ∨ resp.json = Except.ok Json.null) :
    (CentralAPIClient.get c e p resp).result = Except.ok (Json.obj []) := by
  have hrs : raiseForStatus resp.status_code = false := by
    simp only [raiseForStatus, Bool.and_eq_false_iff, decide_eq_false_iff_not]
    omega
  rw [get_result_eq, hrs]
  simp only [Bool.false_eq_true, if_false]
  rcases hdeg with hblank | ⟨msg, hjson⟩ | hjson
  · simp [hblank]
  · by_cases hb : (resp.text == "" || pyStrip resp.text == "") = true
    · simp [hb]
    · simp [hb, hjson]
  · by_cases hb : (resp.text == "" || pyStrip resp.text == "") = true
    · simp [hb]
    · simp [hb, hjson]

/-- Witness for C1 at a 200 response whose body fails to decode. -/
theorem C1_witness :
    (CentralAPIClient.get demoClientStatic "/a" none respBadJson).result
      = Except.ok (Json.obj []) :=
  C1_get_degenerate_body_empty_mapping demoClientStatic "/a" none respBadJson
    (by decide) (Or.inr (Or.inl ⟨"Expecting value", rfl⟩))

/-- C2: on an HTTP 200 response whose body fails to decode, POST, PUT
and DELETE raise a decode error, while GET returns the empty mapping
and does not raise. -/
theorem C2_decode_error_asymmetry (c : CentralAPIClient) (e : String) (d : Option Json)
    (p : Option (List (String × String))) (resp : HttpResponse) (msg : String)
    (h200 : resp.status_code = 200) (hjson : resp.json = Except.error msg) :
    (CentralAPIClient.post c e d p resp).result
        = Except.error (ApiError.decodeError msg)
    ∧ (CentralAPIClient.put c e d p resp).result
        = Except.error (ApiError.decodeError msg)
    ∧ (CentralAPIClient.delete c e p resp).result
        = Except.error (ApiError.decodeError msg)
    ∧ (CentralAPIClient.get c e p resp).result = Except.ok (Json.obj []) := by
  have hrs : raiseForStatus resp.status_code = false := by
    simp only [raiseForStatus, Bool.and_eq_false_iff, decide_eq_false_iff_not]
    omega
  refine ⟨?_, ?_, ?_, ?_⟩
  · rw [post_result_eq, hrs]
    simp [hjson]
  · rw [put_result_eq, hrs]
    simp [hjson]
  · rw [delete_result_eq, hrs]
    simp [hjson]
  · rw [get_result_eq, hrs]
    simp only [Bool.false_eq_true, if_false]
    by_cases hb : (resp.text == "" || pyStrip resp.text == "") = true
    · simp [hb]
    · simp [hb, hjson]

/-- Witness for C2 at a concrete 200 response with an unparsable body. -/
theorem C2_witness :
    (CentralAPIClient.post demoClientStatic "/a" none none respBadJson).result
        = Except.error (ApiError.decodeError "Expecting value")
    ∧ (CentralAPIClient.get demoClientStatic "/a" none respBadJson).result
        = Except.ok (Json.obj []) :=
  ⟨(C2_decode_error_asymmetry demoClientStatic "/a" none none respBadJson
      "Expecting value" rfl rfl).1,
   (C2_decode_error_asymmetry demoClientStatic "/a" none none respBadJson
      "Expecting value" rfl rfl).2.2.2⟩

/-- C3 as stated is refuted at the empty static token: the empty string
is a supplied static token, yet construction raises the configuration
error, because a Python truthiness test treats it as absent. -/
theorem C3_counterexample :
    CentralAPIClient.init "https://x" (some "") none
      = Except.error "Either access_token or token_manager must be provided" := rfl

/-- C3 (amended): construction with neither credential source fails
with the configuration error, and an empty-string static token with no
provider is treated as absent and fails too; construction with a
non-empty static token, or with a token provider, succeeds. -/
theorem C3_construction_credentials (base : String) :
    CentralAPIClient.init base none none
      = Except.error "Either access_token or token_manager must be provided"
    ∧ CentralAPIClient.init base (some "") none
      = Except.error "Either access_token or token_manager must be provided"
    ∧ (∀ t : String, t ≠ "" →
        ∃ c, CentralAPIClient.init base (some t) none = Except.ok c)
    ∧ (∀ (a : Option String) (m : TokenManager),
        ∃ c, CentralAPIClient.init base a (some m) = Except.ok c) := by
  refine ⟨rfl, rfl, ?_, ?_⟩
  · intro t ht
    have hbe : (t == "") = false := by simp [ht]
    refine ⟨{ base_url := rstripSlash base, token_manager := none, tm_calls := 0,
              headers := CentralAPIClient.update_token
                (updateHeader [] "Content-Type" "application/json") t }, ?_⟩
    simp only [CentralAPIClient.init, hbe, Bool.false_eq_true, if_false]
  · intro a m
    exact ⟨_, rfl⟩

/-- Witness for the amended C3 at a concrete non-empty token. -/
theorem C3_construction_credentials_witness :
    ∃ c, CentralAPIClient.init "https://x" (some "S") none = Except.ok c :=
  (C3_construction_credentials "https://x").2.2.1 "S" (by decide)

/-- C4: constructing with a provider performs exactly one token fetch,
before any verb runs, and installs the fetched token in the
Authorization header. -/
theorem C4_eager_single_fetch (base : String) (a : Option String) (m : TokenManager)
    (c : CentralAPIClient)
    (h : CentralAPIClient.init base a (some m) = Except.ok c) :
    c.tm_calls = 1
    ∧ lookupHeader c.headers "Authorization" = some ("Bearer " ++ m.tokens 0) := by
  simp only [CentralAPIClient.init, Except.ok.injEq] at h
  subst h
  exact ⟨rfl, lookup_update_token _ _⟩

/-- Witness for C4 at the demo provider client. -/
theorem C4_witness :
    demoClientTM.tm_calls = 1
    ∧ lookupHeader demoClientTM.headers "Authorization"
        = some ("Bearer " ++ demoTM.tokens 0) :=
  C4_eager_single_fetch "https://x" none demoTM demoClientTM rfl

/-- C5: with a provider configured, every verb fetches the provider
token due at the current call count and issues its request with the
Authorization header set to Bearer followed by that token; a second
call issued afterwards carries the next provider token, so two calls
carry their respective tokens. -/
theorem C5_provider_token_before_each_request (c : CentralAPIClient) (m : TokenManager)
    (hm : c.token_manager = some m) (e1 e2 : String) (d : Option Json)
    (p1 p2 : Option (List (String × String))) (r1 r2 : HttpResponse) :
    lookupHeader (CentralAPIClient.get c e1 p1 r1).request.headers "Authorization"
        = some ("Bearer " ++ m.tokens c.tm_calls)
    ∧ lookupHeader (CentralAPIClient.post c e1 d p1 r1).request.headers "Authorization"
        = some ("Bearer " ++ m.tokens c.tm_calls)
    ∧ lookupHeader (CentralAPIClient.put c e1 d p1 r1).request.headers "Authorization"
        = some ("Bearer " ++ m.tokens c.tm_calls)
    ∧ lookupHeader (CentralAPIClient.delete c e1 p1 r1).request.headers "Authorization"
        = some ("Bearer " ++ m.tokens c.tm_calls)
    ∧ lookupHeader (CentralAPIClient.get (CentralAPIClient.get c e1 p1 r1).client
          e2 p2 r2).request.headers "Authorization"
        = some ("Bearer " ++ m.tokens (c.tm_calls + 1)) := by
  have hhd : (CentralAPIClient.ensure_valid_token c).headers
      = CentralAPIClient.update_token c.headers (m.tokens c.tm_calls) := by
    rw [ensure_valid_token_some c m hm]
  refine ⟨?_, ?_, ?_, ?_, ?_⟩
  · show lookupHeader (CentralAPIClient.ensure_valid_token c).headers "Authorization" = _
    rw [hhd]; exact lookup_update_token _ _
  · show lookupHeader (CentralAPIClient.ensure_valid_token c).headers "Authorization" = _
    rw [hhd]; exact lookup_update_token _ _
  · show lookupHeader (CentralAPIClient.ensure_valid_token c).headers "Authorization" = _
    rw [hhd]; exact lookup_update_token _ _
  · show lookupHeader (CentralAPIClient.ensure_valid_token c).headers "Authorization" = _
    rw [hhd]; exact lookup_update_token _ _
  · show lookupHeader (CentralAPIClient.ensure_valid_token
        (CentralAPIClient.ensure_valid_token c)).headers "Authorization" = _
    have hm2 : (CentralAPIClient.ensure_valid_token c).token_manager = some m := by
      rw [ensure_valid_token_tm]; exact hm
    have htc : (CentralAPIClient.ensure_valid_token c).tm_calls = c.tm_calls + 1 := by
      rw [ensure_valid_token_some c m hm]
    rw [show (CentralAPIClient.ensure_valid_token
          (CentralAPIClient.ensure_valid_token c)).headers
        = CentralAPIClient.update_token (CentralAPIClient.ensure_valid_token c).headers
            (m.tokens (CentralAPIClient.ensure_valid_token c).tm_calls) from by
      rw [ensure_valid_token_some _ m hm2]]
    rw [htc]
    exact lookup_update_token _ _

/-- Witness for C5 at the demo provider client. -/
theorem C5_witness :
    lookupHeader (CentralAPIClient.get demoClientTM "/a" none respBadJson).request.headers
        "Authorization" = some ("Bearer " ++ demoTM.tokens demoClientTM.tm_calls) :=
  (C5_provider_token_before_each_request demoClientTM demoTM rfl "/a" "/b" none none none
      respBadJson respBadJson).1

/-- C6: for every verb, over responses with a valid HTTP status (below
600), an HTTP error carrying the status code is raised if and only if
the status is at least 400; in particular a GET on 404 raises an HTTP
error with status 404 regardless of the body. -/
theorem C6_http_error_iff_status_ge_400 (c : CentralAPIClient) (e : String)
    (d : Option Json) (p : Option (List (String × String))) (resp : HttpResponse)
    (s : Nat) (hvalid : resp.status_code < 600) :
    ((CentralAPIClient.get c e p resp).result = Except.error (ApiError.httpError s)
      ↔ s = resp.status_code ∧ 400 ≤ resp.status_code)
    ∧ ((CentralAPIClient.post c e d p resp).result = Except.error (ApiError.httpError s)
      ↔ s = resp.status_code ∧ 400 ≤ resp.status_code)
    ∧ ((CentralAPIClient.put c e d p resp).result = Except.error (ApiError.httpError s)
      ↔ s = resp.status_code ∧ 400 ≤ resp.status_code)
    ∧ ((CentralAPIClient.delete c e p resp).result = Except.error (ApiError.httpError s)
      ↔ s = resp.status_code ∧ 400 ≤ resp.status_code) := by
  by_cases h4 : 400 ≤ resp.status_code
  · have hrs : raiseForStatus resp.status_code = true := by
      simp only [raiseForStatus, Bool.and_eq_true, decide_eq_true_eq]
      omega
    refine ⟨?_, ?_, ?_, ?_⟩
    · rw [get_result_eq, hrs]
      simp only [if_true, Except.error.injEq, ApiError.httpError.injEq]
      omega
    · rw [post_result_eq, hrs]
      simp only [if_true, Except.error.injEq, ApiError.httpError.injEq]
      omega
    · rw [put_result_eq, hrs]
      simp only [if_true, Except.error.injEq, ApiError.httpError.injEq]
      omega
    · rw [delete_result_eq, hrs]
      simp only [if_true, Except.error.injEq, ApiError.httpError.injEq]
      omega
  · have hrs : raiseForStatus resp.status_code = false := by
      simp only [raiseForStatus, Bool.and_eq_false_iff, decide_eq_false_iff_not]
      omega
    refine ⟨?_, ?_, ?_, ?_⟩
    · rw [get_result_eq, hrs]
      simp only [Bool.false_eq_true, if_false]
      split
      · simp [h4]
      · split <;> simp [h4]
    · rw [post_result_eq, hrs]
      simp only [Bool.false_eq_true, if_false]
      split <;> simp [h4]
    · rw [put_result_eq, hrs]
      simp only [Bool.false_eq_true, if_false]
      split <;> simp [h4]
    · rw [delete_result_eq, hrs]
      simp only [Bool.false_eq_true, if_false]
      split <;> simp [h4]

/-- Witness for C6: GET on a 404 response raises the 404 HTTP error. -/
theorem C6_witness :
    (CentralAPIClient.get demoClientStatic "/missing" none resp404).result
      = Except.error (ApiError.httpError 404) :=
  ((C6_http_error_iff_status_ge_400 demoClientStatic "/missing" none none resp404 404
      (by decide)).1).mpr ⟨rfl, by decide⟩

/-- C7: without a provider, the Authorization header equals Bearer
followed by the static construction token for the whole client
lifetime: it is unchanged by any sequence of verb calls. -/
theorem C7_static_token_for_lifetime (base t : String) (ht : t ≠ "")
    (c : CentralAPIClient)
    (h : CentralAPIClient.init base (some t) none = Except.ok c)
    (calls : List Call) :
    lookupHeader (runCalls c calls).headers "Authorization"
      = some ("Bearer " ++ t) := by
  have hbe : (t == "") = false := by simp [ht]
  simp only [CentralAPIClient.init, hbe, Bool.false_eq_true, if_false,
    Except.ok.injEq] at h
  subst h
  rw [runCalls_no_provider _ rfl]
  exact lookup_update_token _ _

/-- Witness for C7: the static client keeps its token across a
four-verb call sequence. -/
theorem C7_witness :
    lookupHeader (runCalls demoClientStatic demoCalls).headers "Authorization"
      = some ("Bearer " ++ "S") :=
  C7_static_token_for_lifetime "https://x/" "S" (by decide) demoClientStatic rfl demoCalls

/-- C8: every verb call, issued from the constructed client after any
sequence of prior calls, addresses the base with trailing slashes
stripped concatenated with the endpoint verbatim, with no separator
inserted. -/
theorem C8_request_url_concatenation (base : String) (a : Option String)
    (tm : Option TokenManager) (c : CentralAPIClient)
    (h : CentralAPIClient.init base a tm = Except.ok c)
    (calls : List Call) (e : String) (d : Option Json)
    (p : Option (List (String × String))) (r : HttpResponse) :
    (CentralAPIClient.get (runCalls c calls) e p r).request.url
        = rstripSlash base ++ e
    ∧ (CentralAPIClient.post (runCalls c calls) e d p r).request.url
        = rstripSlash base ++ e
    ∧ (CentralAPIClient.put (runCalls c calls) e d p r).request.url
        = rstripSlash base ++ e
    ∧ (CentralAPIClient.delete (runCalls c calls) e p r).request.url
        = rstripSlash base ++ e := by
  have hb : (runCalls c calls).base_url = rstripSlash base := by
    rw [runCalls_base_url, init_base_url base a tm c h]
  refine ⟨?_, ?_, ?_, ?_⟩
  · show (CentralAPIClient.ensure_valid_token (runCalls c calls)).base_url ++ e = _
    rw [ensure_valid_token_base_url, hb]
  · show (CentralAPIClient.ensure_valid_token (runCalls c calls)).base_url ++ e = _
    rw [ensure_valid_token_base_url, hb]
  · show (CentralAPIClient.ensure_valid_token (runCalls c calls)).base_url ++ e = _
    rw [ensure_valid_token_base_url, hb]
  · show (CentralAPIClient.ensure_valid_token (runCalls c calls)).base_url ++ e = _
    rw [ensure_valid_token_base_url, hb]

/-- Witness for C8 at the static demo client. -/
theorem C8_witness :
    (CentralAPIClient.get demoClientStatic "/v1/aps" none respBadJson).request.url
      = rstripSlash "https://x/" ++ "/v1/aps" :=
  (C8_request_url_concatenation "https://x/" (some "S") none demoClientStatic rfl []
      "/v1/aps" none none respBadJson).1

/-- Appending to a fixed string on the left is injective. -/
theorem string_append_left_cancel (s a b : String) (h : s ++ a = s ++ b) : a = b := by
  have hd : s.data ++ a.data = s.data ++ b.data := congrArg String.data h
  have hab : a.data = b.data := List.append_cancel_left hd
  cases a with
  | mk da =>
      cases b with
      | mk db =>
          have hdd : da = db := hab
          rw [hdd]

/-- C9 as stated is refuted: a success body decoding to a list is
returned as is, so a GET on a 200 array body hands the caller a
non-mapping value. -/
theorem C9_counterexample :
    (CentralAPIClient.get demoClientStatic "/a" none
        { status_code := 200, text := "[1]",
          json := Except.ok (Json.arr [Json.num 1]) }).result
      = Except.ok (Json.arr [Json.num 1])
    ∧ (Json.arr [Json.num 1]).isMapping = false := ⟨rfl, rfl⟩

/-- C9 (amended): on success the caller receives the decoded body value
(or, in the degenerate GET cases, the empty mapping); in particular,
whenever the decoded body is a mapping, every verb that succeeds
returns a mapping. -/
theorem C9_mapping_result_for_mapping_body (c : CentralAPIClient) (e : String)
    (d : Option Json) (p : Option (List (String × String))) (resp : HttpResponse)
    (fields : List (String × Json)) (hjson : resp.json = Except.ok (Json.obj fields)) :
    (∀ v, (CentralAPIClient.get c e p resp).result = Except.ok v → v.isMapping = true)
    ∧ (∀ v, (CentralAPIClient.post c e d p resp).result = Except.ok v
        → v.isMapping = true)
    ∧ (∀ v, (CentralAPIClient.put c e d p resp).result = Except.ok v
        → v.isMapping = true)
    ∧ (∀ v, (CentralAPIClient.delete c e p resp).result = Except.ok v
        → v.isMapping = true) := by
  refine ⟨?_, ?_, ?_, ?_⟩
  · intro v hv
    rw [get_result_eq, hjson] at hv
    split at hv
    · exact Except.noConfusion hv
    · split at hv
      · injection hv with h2
        subst h2; rfl
      · injection hv with h2
        subst h2; rfl
  · intro v hv
    rw [post_result_eq, hjson] at hv
    split at hv
    · exact Except.noConfusion hv
    · injection hv with h2
      subst h2; rfl
  · intro v hv
    rw [put_result_eq, hjson] at hv
    split at hv
    · exact Except.noConfusion hv
    · injection hv with h2
      subst h2; rfl
  · intro v hv
    rw [delete_result_eq, hjson] at hv
    split at hv
    · exact Except.noConfusion hv
    · injection hv with h2
      subst h2; rfl

/-- Witness for the amended C9 at a concrete mapping body. -/
theorem C9_mapping_result_witness :
    (Json.obj [("a", Json.num 1)]).isMapping = true :=
  (C9_mapping_result_for_mapping_body demoClientStatic "/a" none none respObj
      [("a", Json.num 1)] rfl).1 (Json.obj [("a", Json.num 1)]) rfl

/-- C10: construction with both a static token and a provider succeeds,
and the eagerly fetched provider token, not the static token, is
installed in the Authorization header. -/
theorem C10_provider_takes_precedence (base t : String) (m : TokenManager) :
    (∃ c, CentralAPIClient.init base (some t) (some m) = Except.ok c)
    ∧ ∀ c, CentralAPIClient.init base (some t) (some m) = Except.ok c →
        (lookupHeader c.headers "Authorization" = some ("Bearer " ++ m.tokens 0)
         ∧ (t ≠ m.tokens 0 →
             lookupHeader c.headers "Authorization" ≠ some ("Bearer " ++ t))) := by
  constructor
  · exact ⟨_, rfl⟩
  · intro c h
    simp only [CentralAPIClient.init, Except.ok.injEq] at h
    subst h
    refine ⟨lookup_update_token _ _, ?_⟩
    intro hne hcontra
    rw [lookup_update_token] at hcontra
    injection hcontra with h2
    exact hne (string_append_left_cancel "Bearer " (m.tokens 0) t h2).symm

/-- Witness for C10: with both credential sources, the installed token
is the provider token and differs from the static token. -/
theorem C10_witness :
    ("S" : String) ≠ demoTM.tokens 0
    ∧ lookupHeader demoClientBoth.headers "Authorization" ≠ some ("Bearer " ++ "S") :=
  ⟨by decide,
   (((C10_provider_takes_precedence "https://x" "S" demoTM).2 demoClientBoth rfl).2)
     (by decide)⟩
